import Mathlib

/-!
Verification of the environment-detection dispatcher `install.py`.

The program probes the process environment (environment variables, a few
filesystem paths, interpreter metadata), classifies the host
(WSL / MinGW / Cygwin / Git Bash / native Windows / plain Unix), and
dispatches exactly one of two installer scripts (`install.sh` or
`install.ps1`), forwarding command-line arguments and an emoji-support
capability flag.

The embedding below models the environment snapshot as a structure `Env`,
the outside world (subprocess results, file existence, chmod success) as a
structure `World`, and the program's observable behaviour as a trace of
`Event`s together with an `Outcome` (normal exit code, or an unhandled
exception).  Every definition is a direct translation of the corresponding
Python function in `install.py`.
-/

/-- Python's substring test `needle in hay` (for strings). -/
def substr (needle hay : String) : Bool :=
  hay.toList.tails.any (fun t => needle.toList.isPrefixOf t)

/-- ASCII lowercase of one character. -/
def lowerChar (c : Char) : Char :=
  if 'A' ≤ c ∧ c ≤ 'Z' then Char.ofNat (c.toNat + 32) else c

/-- Python's `s.lower()` on the ASCII range (every string the program
lowercases is an environment-variable value or an executable path). -/
def pyLower (s : String) : String := ⟨s.data.map lowerChar⟩

/-- Python's `re.match(r"^[A-Za-z]:", s)` viewed as a Bool: the string starts
with an ASCII letter followed by a colon. -/
def windowsDrivePath (s : String) : Bool :=
  match s.toList with
  | c :: d :: _ =>
      (decide ('A' ≤ c) && decide (c ≤ 'Z') || decide ('a' ≤ c) && decide (c ≤ 'z'))
        && decide (d = ':')
  | _ => false

/-- A snapshot of everything `install.py`'s detector reads from the host:
`os.environ` (as a partial map), the contents of `/proc/version` (`none` when
the file is absent or unreadable), existence of `/cygdrive`, `sys.executable`,
`platform.system().lower()`, and `locale.getlocale()[1]` (`none` when the call
fails or returns `None`). -/
structure Env where
  vars : String → Option String
  procVersion : Option String
  cygdriveExists : Bool
  sysExecutable : String
  osType : String
  localeEncoding : Option String

/-- `os.environ.get(k, d)`. -/
def Env.getD (e : Env) (k d : String) : String := (e.vars k).getD d

/-- `k in os.environ`. -/
def Env.has (e : Env) (k : String) : Bool := (e.vars k).isSome

/-- `EnvironmentDetector._detect_wsl`: if `/proc/version` is readable its
contents decide the question (does it mention "microsoft"?); otherwise fall
back to the `WSL_DISTRO_NAME` / `WSL_INTEROP` environment variables. -/
def detect_wsl (e : Env) : Bool :=
  match e.procVersion with
  | some content => substr "microsoft" (pyLower content)
  | none => e.has "WSL_DISTRO_NAME" || e.has "WSL_INTEROP"

/-- `EnvironmentDetector._detect_mingw`. -/
def detect_mingw (e : Env) : Bool :=
  e.has "MSYSTEM" || substr "MINGW" (e.getD "MSYSTEM" "")
    || substr "/mingw" (pyLower (e.getD "PATH" ""))

/-- `EnvironmentDetector._detect_cygwin`. -/
def detect_cygwin (e : Env) : Bool :=
  e.has "CYGWIN" || e.cygdriveExists || substr "/cygwin" (pyLower e.sysExecutable)

/-- `EnvironmentDetector._detect_git_bash`. -/
def detect_git_bash (e : Env) : Bool :=
  substr "MINGW" (e.getD "MSYSTEM" "") && substr "Git" (e.getD "EXEPATH" "")

/-- `EnvironmentDetector._detect_terminal`; `is_mingw` and `is_git_bash` are
the fields already computed by `__init__`. -/
def detect_terminal (e : Env) (is_mingw is_git_bash : Bool) : String :=
  let term_program := e.getD "TERM_PROGRAM" ""
  let terminal_emulator := e.getD "TERMINAL_EMULATOR" ""
  let wt_session := e.getD "WT_SESSION" ""
  if substr "vscode" (pyLower term_program) then "vscode"
  else if wt_session ≠ "" then "windows_terminal"
  else if e.has "ConEmu" then "conemu"
  else if terminal_emulator ≠ "" then pyLower terminal_emulator
  else if is_mingw || is_git_bash then "mintty"
  else "unknown"

/-- `EnvironmentDetector._detect_emoji_support`; `terminal_type` is the field
already computed by `__init__`.  Python's `current_locale and "utf" in
current_locale.lower()` is falsy when the encoding is `None` or empty. -/
def detect_emoji_support (e : Env) (terminal_type : String) : Bool :=
  if terminal_type = "windows_terminal" ∨ terminal_type = "vscode" then true
  else if (match e.localeEncoding with
           | some enc => enc ≠ "" && substr "utf" (pyLower enc)
           | none => false) then true
  else
    let lang := e.getD "LANG" ""
    if substr "UTF-8" lang || substr "utf8" (pyLower lang) then true
    else false

/-- `EnvironmentDetector._detect_python_type`. -/
def detect_python_type (e : Env) : String :=
  if substr "\\" e.sysExecutable || windowsDrivePath e.sysExecutable then "windows"
  else "unix"

/-- `EnvironmentDetector._detect_actual_shell`; the Bool/String arguments are
the fields already computed by `__init__`. -/
def detect_actual_shell (e : Env) (is_wsl is_mingw is_cygwin is_git_bash : Bool)
    (python_type : String) : String :=
  if is_wsl && decide (python_type = "windows") then "wsl_from_windows"
  else if is_mingw || is_git_bash || is_cygwin then "bash"
  else if decide (e.osType = "windows") && !(is_wsl || is_mingw || is_cygwin) then
    (if e.has "PSModulePath" then "powershell" else "cmd")
  else
    let shell_env := pyLower (e.getD "SHELL" "")
    if substr "bash" shell_env then "bash"
    else if substr "zsh" shell_env then "zsh"
    else if substr "fish" shell_env then "fish"
    else "bash"

/-- The `EnvironmentDetector` value object: one field per attribute set by
`__init__`. -/
structure EnvironmentDetector where
  os_type : String
  is_wsl : Bool
  is_mingw : Bool
  is_cygwin : Bool
  is_git_bash : Bool
  terminal_type : String
  supports_emoji : Bool
  python_type : String
  actual_shell : String
  deriving DecidableEq

/-- `EnvironmentDetector.__init__`: runs every probe once, in source order,
and stores the results. -/
def EnvironmentDetector.detect (e : Env) : EnvironmentDetector :=
  let os_type := e.osType
  let is_wsl := detect_wsl e
  let is_mingw := detect_mingw e
  let is_cygwin := detect_cygwin e
  let is_git_bash := detect_git_bash e
  let terminal_type := detect_terminal e is_mingw is_git_bash
  let supports_emoji := detect_emoji_support e terminal_type
  let python_type := detect_python_type e
  let actual_shell := detect_actual_shell e is_wsl is_mingw is_cygwin is_git_bash python_type
  { os_type := os_type, is_wsl := is_wsl, is_mingw := is_mingw,
    is_cygwin := is_cygwin, is_git_bash := is_git_bash,
    terminal_type := terminal_type, supports_emoji := supports_emoji,
    python_type := python_type, actual_shell := actual_shell }

/-- Python's `str(True)` / `str(False)`, used by the summary printer. -/
def pyBool (b : Bool) : String := if b then "True" else "False"

/-- `EnvironmentDetector.get_summary`. -/
def EnvironmentDetector.get_summary (det : EnvironmentDetector) : List (String × String) :=
  [("OS", det.os_type), ("WSL", pyBool det.is_wsl),
   ("MinGW/MSYS2", pyBool det.is_mingw), ("Git Bash", pyBool det.is_git_bash),
   ("Cygwin", pyBool det.is_cygwin), ("Terminal", det.terminal_type),
   ("Emoji Support", pyBool det.supports_emoji),
   ("Python Type", det.python_type), ("Shell", det.actual_shell)]

/-- The outside world as seen by the dispatcher: whether each probed
subprocess succeeds (`rustc --version`, `cargo --version`,
`wsl rustc --version`), whether each installer script file exists, whether
`os.chmod` succeeds, the (stripped) stdout of `wsl wslpath`, the script
directory, and the exit code of the dispatched child process. -/
structure World where
  env : Env
  rustcOk : Bool
  cargoOk : Bool
  wslRustcOk : Bool
  installShExists : Bool
  installPs1Exists : Bool
  chmodOk : Bool
  wslpathOut : String
  scriptDir : String
  childExit : Int

/-- An observable step of the program: a detector construction (a full
re-run of every probe), a bounded version-query subprocess (`timeout` is its
`timeout=` argument, `none` when the call has no timeout), a line printed to
stdout, an `os.chmod` attempt, or the single installer invocation (`cmd` is
the full command line, `fwd` the forwarded argument list appended to it,
`emojiEnvVar` the value given to `INSTALLER_EMOJI_SUPPORT` in the child's
environment, `none` when the flag travels as a command-line switch instead). -/
inductive Event where
  | detectorRun : Event
  | probe : List String → Option Nat → Bool → Event
  | print : String → Event
  | chmodTry : String → Bool → Event
  | call : List String → List String → Option String → Event
  deriving DecidableEq

/-- Normal termination with an exit code, or an unhandled Python exception. -/
inductive Outcome where
  | exit : Int → Outcome
  | raise : String → Outcome
  deriving DecidableEq

/-- `check_rust_installed`: try `rustc --version` then `cargo --version`
(each `timeout=5`, any exception treated as failure); if both fail,
construct a fresh `EnvironmentDetector` and, when it reports WSL with a
native-Windows interpreter, try `wsl rustc --version` as well. -/
def check_rust_installed (w : World) : Bool × List Event :=
  if w.rustcOk then (true, [Event.probe ["rustc", "--version"] (some 5) true])
  else if w.cargoOk then
    (true, [Event.probe ["rustc", "--version"] (some 5) false,
            Event.probe ["cargo", "--version"] (some 5) true])
  else
    let det := EnvironmentDetector.detect w.env
    let base := [Event.probe ["rustc", "--version"] (some 5) false,
                 Event.probe ["cargo", "--version"] (some 5) false,
                 Event.detectorRun]
    if det.is_wsl && decide (det.python_type = "windows") then
      (w.wslRustcOk, base ++ [Event.probe ["wsl", "rustc", "--version"] (some 5) w.wslRustcOk])
    else (false, base)

/-- `script_dir / "install.sh"`. -/
def shPath (w : World) : String := w.scriptDir ++ "/install.sh"

/-- `script_dir / "install.ps1"`. -/
def psPath (w : World) : String := w.scriptDir ++ "/install.ps1"

/-- The value stored in `INSTALLER_EMOJI_SUPPORT` for posix targets. -/
def emojiVal (det : EnvironmentDetector) : String :=
  if det.supports_emoji then "1" else "0"

/-- `run_installer`: selects the branch exactly as the source does
(`wsl_from_windows` → MinGW/Git Bash/Cygwin → powershell/cmd → default
Unix), reports a missing script with exit 1, and invokes the chosen script.
In the MinGW branch `os.chmod` is wrapped in try/except and its failure is
swallowed; in the default Unix branch it is unprotected, so its failure
surfaces as an unhandled exception. -/
def run_installer (det : EnvironmentDetector) (w : World) (args : List String) :
    List Event × Outcome :=
  if det.actual_shell = "wsl_from_windows" then
    if !w.installShExists then
      ([Event.print "Error: install.sh not found"], Outcome.exit 1)
    else
      ([Event.probe ["wsl", "wslpath", shPath w] none true,
        Event.call (["wsl", "bash", w.wslpathOut] ++ args) args (some (emojiVal det))],
       Outcome.exit w.childExit)
  else if det.is_mingw || det.is_git_bash || det.is_cygwin then
    if !w.installShExists then
      ([Event.print "Error: install.sh not found"], Outcome.exit 1)
    else
      ([Event.chmodTry (shPath w) w.chmodOk,
        Event.call (["bash", shPath w] ++ args) args (some (emojiVal det))],
       Outcome.exit w.childExit)
  else if det.actual_shell = "powershell" ∨ det.actual_shell = "cmd" then
    if !w.installPs1Exists then
      ([Event.print "Error: install.ps1 not found"], Outcome.exit 1)
    else
      ([Event.call (["powershell", "-ExecutionPolicy", "Bypass", "-File", psPath w]
          ++ (if det.supports_emoji then [] else ["-NoEmoji"]) ++ args) args none],
       Outcome.exit w.childExit)
  else
    if !w.installShExists then
      ([Event.print "Error: install.sh not found"], Outcome.exit 1)
    else if !w.chmodOk then
      ([Event.chmodTry (shPath w) false], Outcome.raise "PermissionError: chmod")
    else
      ([Event.chmodTry (shPath w) true,
        Event.call (["bash", shPath w] ++ args) args (some (emojiVal det))],
       Outcome.exit w.childExit)

/-- The argument list after `main`'s debug handling: `args.remove("--debug")`
removes the first occurrence only, and only when present. -/
def stripDebug (argv : List String) : List String :=
  if "--debug" ∈ argv then argv.erase "--debug" else argv

/-- The `"=" * 40` separator line. -/
def sep40 : String := "========================================"

/-- The lines printed by the `--debug` block of `main`. -/
def debugEvents (det : EnvironmentDetector) (argv : List String) : List Event :=
  if "--debug" ∈ argv then
    [Event.print "Environment Detection Results:", Event.print sep40]
      ++ det.get_summary.map (fun kv => Event.print (kv.1 ++ ": " ++ kv.2))
      ++ [Event.print sep40, Event.print ""]
  else []

/-- The lines printed by the `--help` block of `main`. -/
def helpEvents (det : EnvironmentDetector) : List Event :=
  [Event.print "Universal Rust Development Tools Installer",
   Event.print sep40, Event.print "",
   Event.print "This installer automatically detects your environment and runs",
   Event.print "the appropriate installation script.", Event.print "",
   Event.print "Usage: python install.py [options]",
   Event.print "Options:",
   Event.print "  --all            Install all tools without prompting",
   Event.print "  --debug          Show environment detection details",
   Event.print "  --help, -h       Show this help message", Event.print "",
   Event.print "Detected environment:"]
    ++ det.get_summary.map (fun kv => Event.print ("  " ++ kv.1 ++ ": " ++ kv.2))

/-- The lines printed when the Rust check fails. -/
def rustFailEvents (det : EnvironmentDetector) : List Event :=
  [Event.print "Error: Rust is not installed!",
   Event.print "Please install Rust first: https://rustup.rs"]
    ++ (if det.os_type = "windows" ∨ det.python_type = "windows" then
          [Event.print "For Windows: https://win.rustup.rs"]
        else
          [Event.print "Run: curl --proto \x27=https\x27 --tlsv1.2 -sSf https://sh.rustup.rs | sh"])

/-- `main`: construct the detector, handle `--debug` and `--help`, run the
Rust gate, then dispatch via `run_installer`.  Returns the full event trace
and the process outcome. -/
def main_run (w : World) (argv : List String) : List Event × Outcome :=
  let det := EnvironmentDetector.detect w.env
  let args := stripDebug argv
  let pre := Event.detectorRun :: debugEvents det argv
  if "--help" ∈ args ∨ "-h" ∈ args then
    (pre ++ helpEvents det, Outcome.exit 0)
  else if (check_rust_installed w).1 = false then
    (pre ++ (check_rust_installed w).2 ++ rustFailEvents det, Outcome.exit 1)
  else
    (pre ++ (check_rust_installed w).2 ++ (run_installer det w args).1,
     (run_installer det w args).2)

/-- The installer-invocation events of a trace. -/
def callEvents (tr : List Event) : List Event :=
  tr.filter (fun ev => match ev with | Event.call _ _ _ => true | _ => false)

/-- The forwarded argument lists of the installer invocations in a trace. -/
def forwardedLists (tr : List Event) : List (List String) :=
  tr.filterMap (fun ev => match ev with | Event.call _ fwd _ => some fwd | _ => none)

/-- How many times the full probe suite was run (detector constructions). -/
def detectorRuns (tr : List Event) : Nat := tr.count Event.detectorRun

/-- Every probe event in the trace carries a 5-unit timeout. -/
def probesBounded (tr : List Event) : Bool :=
  tr.all (fun ev => match ev with
    | Event.probe _ t _ => t == some 5
    | _ => true)

/-- The script file `run_installer` requires for a given classification,
following the source's branch order: posix targets and the WSL bridge need
`install.sh`, the windows-native targets need `install.ps1`. -/
def requiredScript (det : EnvironmentDetector) : String :=
  if det.actual_shell = "wsl_from_windows" then "install.sh"
  else if det.is_mingw || det.is_git_bash || det.is_cygwin then "install.sh"
  else if det.actual_shell = "powershell" ∨ det.actual_shell = "cmd" then "install.ps1"
  else "install.sh"

/-- Whether the named script file exists in this world. -/
def scriptPresent (w : World) (s : String) : Bool :=
  if s = "install.ps1" then w.installPs1Exists else w.installShExists

/-- The effective-shell-target resolution exactly as the specification words
it: (1) linux-compatibility subsystem detected and native-windows
interpreter → bridge dispatch; (2) else any POSIX-emulation layer (MinGW,
Git Bash, Cygwin) → bash; (3) else windows with no emulation/subsystem flag
→ `PSModulePath` selects powershell vs cmd; (4) else inspect `SHELL` for
bash/zsh/fish, defaulting to bash. -/
def specShellTarget (e : Env) : String :=
  if detect_wsl e && decide (detect_python_type e = "windows") then "wsl_from_windows"
  else if detect_mingw e || detect_git_bash e || detect_cygwin e then "bash"
  else if decide (e.osType = "windows")
      && !(detect_wsl e || detect_mingw e || detect_git_bash e || detect_cygwin e) then
    (if e.has "PSModulePath" then "powershell" else "cmd")
  else
    let sh := pyLower (e.getD "SHELL" "")
    if substr "bash" sh then "bash"
    else if substr "zsh" sh then "zsh"
    else if substr "fish" sh then "fish"
    else "bash"

/-! ### Concrete environments and worlds used as witnesses -/

/-- A plain Unix host: `SHELL=/bin/bash`, an ordinary `/proc/version`, a
posix interpreter path. -/
def envUnix : Env :=
  { vars := fun k => if k = "SHELL" then some "/bin/bash" else none,
    procVersion := some "Linux version 6.1.0-generic (gcc)",
    cygdriveExists := false, sysExecutable := "/usr/bin/python3",
    osType := "linux", localeEncoding := none }

/-- A native Windows host: `PSModulePath` set, drive-letter interpreter
path, no emulation or subsystem markers. -/
def envWin : Env :=
  { vars := fun k => if k = "PSModulePath" then some "C:\\Modules" else none,
    procVersion := none, cygdriveExists := false,
    sysExecutable := "C:\\Python39\\python.exe",
    osType := "windows", localeEncoding := none }

/-- WSL detected via `/proc/version` while the interpreter itself is a
native-Windows build. -/
def envWslWin : Env :=
  { vars := fun _ => none,
    procVersion := some "Linux version 5.15 Microsoft WSL2",
    cygdriveExists := false, sysExecutable := "C:\\Python39\\python.exe",
    osType := "windows", localeEncoding := none }

/-- A Git Bash session: `MSYSTEM=MINGW64` and a Git `EXEPATH`. -/
def envMingw : Env :=
  { vars := fun k => if k = "MSYSTEM" then some "MINGW64"
      else if k = "EXEPATH" then some "C:\\Program Files\\Git" else none,
    procVersion := none, cygdriveExists := false,
    sysExecutable := "C:\\Program Files\\Git\\usr\\bin\\python3",
    osType := "windows", localeEncoding := none }

/-- Both the editor-integration marker and the modern-terminal-session
marker are present. -/
def envVscodeWT : Env :=
  { vars := fun k => if k = "TERM_PROGRAM" then some "vscode"
      else if k = "WT_SESSION" then some "4f2f4f2f" else none,
    procVersion := none, cygdriveExists := false,
    sysExecutable := "C:\\Python39\\python.exe",
    osType := "windows", localeEncoding := none }

/-- No recognized encoding/terminal signal, but an unrelated variable whose
value contains the substring "utf". -/
def envOddUtf : Env :=
  { vars := fun k => if k = "MY_CUSTOM_FLAG" then some "UTF-8" else none,
    procVersion := some "Linux version 6.1.0-generic (gcc)",
    cygdriveExists := false, sysExecutable := "/usr/bin/python3",
    osType := "linux", localeEncoding := none }

/-- Plain Unix, toolchain present, `install.sh` present, chmod succeeds. -/
def wUnixOk : World :=
  { env := envUnix, rustcOk := true, cargoOk := true, wslRustcOk := false,
    installShExists := true, installPs1Exists := false, chmodOk := true,
    wslpathOut := "", scriptDir := "/repo", childExit := 0 }

/-- Plain Unix, toolchain present, `install.sh` present, but chmod fails. -/
def wChmodFail : World :=
  { env := envUnix, rustcOk := true, cargoOk := true, wslRustcOk := false,
    installShExists := true, installPs1Exists := false, chmodOk := false,
    wslpathOut := "", scriptDir := "/repo", childExit := 0 }

/-- Plain Unix with every toolchain probe failing. -/
def wAllFail : World :=
  { env := envUnix, rustcOk := false, cargoOk := false, wslRustcOk := false,
    installShExists := true, installPs1Exists := false, chmodOk := true,
    wslpathOut := "", scriptDir := "/repo", childExit := 0 }

/-- WSL-from-Windows where the direct probes fail but the bridged
`wsl rustc --version` succeeds. -/
def wWslRetry : World :=
  { env := envWslWin, rustcOk := false, cargoOk := false, wslRustcOk := true,
    installShExists := true, installPs1Exists := false, chmodOk := true,
    wslpathOut := "/mnt/c/repo/install.sh", scriptDir := "C:/repo", childExit := 0 }

/-- Native Windows, toolchain present, `install.ps1` present. -/
def wWinOk : World :=
  { env := envWin, rustcOk := true, cargoOk := true, wslRustcOk := false,
    installShExists := false, installPs1Exists := true, chmodOk := true,
    wslpathOut := "", scriptDir := "C:/repo", childExit := 0 }

/-- Native Windows with `install.ps1` missing. -/
def wWinNoScript : World :=
  { env := envWin, rustcOk := true, cargoOk := true, wslRustcOk := false,
    installShExists := true, installPs1Exists := false, chmodOk := true,
    wslpathOut := "", scriptDir := "C:/repo", childExit := 0 }

/-- Git Bash world: `install.sh` present but chmod fails. -/
def wMingwChmodFail : World :=
  { env := envMingw, rustcOk := true, cargoOk := true, wslRustcOk := false,
    installShExists := true, installPs1Exists := false, chmodOk := false,
    wslpathOut := "", scriptDir := "/c/repo", childExit := 7 }

/-! ### Trace lemmas -/

lemma mem_map_print (f : String × String → String) (l : List (String × String))
    (ev : Event) (h : ev ∈ l.map fun kv => Event.print (f kv)) :
    ∃ s, ev = Event.print s := by
  obtain ⟨a, _, rfl⟩ := List.mem_map.mp h
  exact ⟨f a, rfl⟩

lemma onlyPrints_debugEvents (det : EnvironmentDetector) (argv : List String) :
    ∀ ev ∈ debugEvents det argv, ∃ s, ev = Event.print s := by
  intro ev h
  unfold debugEvents at h
  split at h
  · simp only [List.mem_append, List.mem_cons, List.not_mem_nil, or_false] at h
    casesm* _ ∨ _
    all_goals first
      | exact ⟨_, by assumption⟩
      | exact mem_map_print _ _ _ (by assumption)
  · simp at h

lemma onlyPrints_helpEvents (det : EnvironmentDetector) :
    ∀ ev ∈ helpEvents det, ∃ s, ev = Event.print s := by
  intro ev h
  unfold helpEvents at h
  simp only [List.mem_append, List.mem_cons, List.not_mem_nil, or_false] at h
  casesm* _ ∨ _
  all_goals first
    | exact ⟨_, by assumption⟩
    | exact mem_map_print _ _ _ (by assumption)

lemma onlyPrints_rustFailEvents (det : EnvironmentDetector) :
    ∀ ev ∈ rustFailEvents det, ∃ s, ev = Event.print s := by
  intro ev h
  unfold rustFailEvents at h
  split at h
  all_goals
    simp only [List.mem_append, List.mem_cons, List.not_mem_nil, or_false] at h
  all_goals casesm* _ ∨ _
  all_goals exact ⟨_, by assumption⟩

lemma callEvents_nil (tr : List Event) (h : ∀ ev ∈ tr, ∃ s, ev = Event.print s) :
    callEvents tr = [] := by
  induction tr with
  | nil => rfl
  | cons a t ih =>
    obtain ⟨s, rfl⟩ := h a (by simp)
    simpa [callEvents, List.filter_cons] using ih (fun ev hev => h ev (by simp [hev]))

lemma forwardedLists_nil (tr : List Event) (h : ∀ ev ∈ tr, ∃ s, ev = Event.print s) :
    forwardedLists tr = [] := by
  induction tr with
  | nil => rfl
  | cons a t ih =>
    obtain ⟨s, rfl⟩ := h a (by simp)
    simpa [forwardedLists, List.filterMap_cons] using ih (fun ev hev => h ev (by simp [hev]))

lemma detectorRuns_zero (tr : List Event) (h : ∀ ev ∈ tr, ∃ s, ev = Event.print s) :
    detectorRuns tr = 0 := by
  induction tr with
  | nil => rfl
  | cons a t ih =>
    obtain ⟨s, rfl⟩ := h a (by simp)
    simpa [detectorRuns, List.count_cons] using ih (fun ev hev => h ev (by simp [hev]))

lemma all_of_onlyPrints (tr : List Event) (h : ∀ ev ∈ tr, ∃ s, ev = Event.print s)
    (p : Event → Bool) (hp : ∀ s, p (Event.print s) = true) : tr.all p = true := by
  rw [List.all_eq_true]
  intro ev hev
  obtain ⟨s, rfl⟩ := h ev hev
  exact hp s

lemma callEvents_append (t1 t2 : List Event) :
    callEvents (t1 ++ t2) = callEvents t1 ++ callEvents t2 := by
  simp [callEvents]

lemma forwardedLists_append (t1 t2 : List Event) :
    forwardedLists (t1 ++ t2) = forwardedLists t1 ++ forwardedLists t2 := by
  simp [forwardedLists]

lemma callEvents_check (w : World) : callEvents (check_rust_installed w).2 = [] := by
  unfold check_rust_installed
  split_ifs
  · simp [callEvents, List.filter_cons]
  · simp [callEvents, List.filter_cons]
  · simp only []
    split <;> simp [callEvents, List.filter_cons]

lemma forwardedLists_check (w : World) : forwardedLists (check_rust_installed w).2 = [] := by
  unfold check_rust_installed
  split_ifs
  · simp [forwardedLists, List.filterMap_cons]
  · simp [forwardedLists, List.filterMap_cons]
  · simp only []
    split <;> simp [forwardedLists, List.filterMap_cons]

lemma detectorRuns_check (w : World) :
    detectorRuns (check_rust_installed w).2
      = if w.rustcOk then 0 else if w.cargoOk then 0 else 1 := by
  unfold check_rust_installed
  split_ifs
  · simp [detectorRuns, List.count_cons]
  · simp [detectorRuns, List.count_cons]
  · simp only []
    split <;> simp [detectorRuns, List.count_cons]

lemma probes_check_bounded (w : World) : probesBounded (check_rust_installed w).2 = true := by
  unfold check_rust_installed
  split_ifs
  · simp [probesBounded]
  · simp [probesBounded]
  · simp only []
    split <;> simp [probesBounded]

lemma forwardedLists_run (det : EnvironmentDetector) (w : World) (a : List String) :
    ∀ l ∈ forwardedLists (run_installer det w a).1, l = a := by
  intro l hl
  unfold run_installer at hl
  split_ifs at hl <;> simp_all [forwardedLists, List.filterMap_cons]

lemma detectorRuns_run (det : EnvironmentDetector) (w : World) (a : List String) :
    detectorRuns (run_installer det w a).1 = 0 := by
  unfold run_installer
  split_ifs <;> simp [detectorRuns, List.count_cons]

lemma forwardedLists_cons_detector (tr : List Event) :
    forwardedLists (Event.detectorRun :: tr) = forwardedLists tr := by
  simp [forwardedLists, List.filterMap_cons]

lemma forwardedLists_main (w : World) (argv : List String) :
    ∀ l ∈ forwardedLists (main_run w argv).1, l = stripDebug argv := by
  have hdbg := forwardedLists_nil _ (onlyPrints_debugEvents (EnvironmentDetector.detect w.env) argv)
  have hhelp := forwardedLists_nil _ (onlyPrints_helpEvents (EnvironmentDetector.detect w.env))
  have hfail := forwardedLists_nil _ (onlyPrints_rustFailEvents (EnvironmentDetector.detect w.env))
  have hchk := forwardedLists_check w
  intro l hl
  unfold main_run at hl
  simp only [] at hl
  split_ifs at hl <;>
    simp only [List.cons_append, forwardedLists_cons_detector, forwardedLists_append,
      hdbg, hhelp, hfail, hchk, List.append_nil, List.nil_append] at hl
  · exact absurd hl (by simp)
  · exact absurd hl (by simp)
  · exact forwardedLists_run _ _ _ l hl

lemma callEvents_cons_detector (tr : List Event) :
    callEvents (Event.detectorRun :: tr) = callEvents tr := by
  simp [callEvents, List.filter_cons]

lemma detectorRuns_cons_detector (tr : List Event) :
    detectorRuns (Event.detectorRun :: tr) = detectorRuns tr + 1 := by
  simp [detectorRuns, List.count_cons]

lemma detectorRuns_append (t1 t2 : List Event) :
    detectorRuns (t1 ++ t2) = detectorRuns t1 + detectorRuns t2 :=
  List.count_append _ _ _

/-! ### Claims -/

/-- C1: for every environment snapshot, the effective shell target computed
by `_detect_actual_shell` equals the first-match precedence resolution the
specification states: (1) WSL detected and native-windows interpreter →
`wsl_from_windows`; (2) else any POSIX-emulation layer (MinGW, Git Bash,
Cygwin) → `bash`; (3) else windows with no emulation/subsystem flag →
`PSModulePath` selects `powershell` vs `cmd`; (4) else `SHELL` is inspected
for bash/zsh/fish, defaulting to `bash`. -/
theorem actual_shell_follows_spec_precedence (e : Env) :
    (EnvironmentDetector.detect e).actual_shell = specShellTarget e := by
  have h : (EnvironmentDetector.detect e).actual_shell =
      detect_actual_shell e (detect_wsl e) (detect_mingw e) (detect_cygwin e)
        (detect_git_bash e) (detect_python_type e) := rfl
  rw [h]
  cases hw : detect_wsl e <;> cases hm : detect_mingw e <;>
    cases hg : detect_git_bash e <;> cases hc : detect_cygwin e <;>
      simp [detect_actual_shell, specShellTarget, hw, hm, hg, hc]

/-- C7: terminal classification is consulted in fixed priority order; when
both the editor-integration marker (`TERM_PROGRAM` containing "vscode") and
the modern-terminal-session marker (`WT_SESSION` non-empty) are present, the
classification is `vscode`. -/
theorem terminal_priority_vscode (e : Env)
    (hv : substr "vscode" (pyLower (e.getD "TERM_PROGRAM" "")) = true)
    (_hw : e.getD "WT_SESSION" "" ≠ "") :
    (EnvironmentDetector.detect e).terminal_type = "vscode" := by
  have h : (EnvironmentDetector.detect e).terminal_type =
      detect_terminal e (detect_mingw e) (detect_git_bash e) := rfl
  rw [h]
  unfold detect_terminal
  simp [hv]

/-- C7 witness: in an environment with `TERM_PROGRAM=vscode` and
`WT_SESSION` set, the classification is `vscode`. -/
theorem terminal_priority_vscode_witness :
    substr "vscode" (pyLower (envVscodeWT.getD "TERM_PROGRAM" "")) = true ∧
    envVscodeWT.getD "WT_SESSION" "" ≠ "" ∧
    (EnvironmentDetector.detect envVscodeWT).terminal_type = "vscode" :=
  ⟨by decide, by decide, terminal_priority_vscode envVscodeWT (by decide) (by decide)⟩

/-- C8: glyph (emoji) support is true exactly when the terminal kind is
`windows_terminal` or `vscode`, or the locale encoding contains "utf"
(case-insensitively), or `LANG` contains "UTF-8" or (lowercased) "utf8";
over all environments, no other variable influences it.  In particular, in
the concrete environment `envOddUtf`, whose only set variable is an
unrelated one with value "UTF-8", support resolves false. -/
theorem emoji_support_characterization :
    (∀ e : Env,
      (EnvironmentDetector.detect e).supports_emoji =
        (((EnvironmentDetector.detect e).terminal_type = "windows_terminal"
            ∨ (EnvironmentDetector.detect e).terminal_type = "vscode" : Bool)
          || (match e.localeEncoding with
              | some enc => enc ≠ "" && substr "utf" (pyLower enc)
              | none => false)
          || (substr "UTF-8" (e.getD "LANG" "")
              || substr "utf8" (pyLower (e.getD "LANG" ""))))) ∧
    (EnvironmentDetector.detect envOddUtf).supports_emoji = false := by
  constructor
  · intro e
    have h : (EnvironmentDetector.detect e).supports_emoji =
        detect_emoji_support e (EnvironmentDetector.detect e).terminal_type := rfl
    rw [h]
    unfold detect_emoji_support
    split_ifs <;> simp_all
  · decide

/-- C10: Git Bash detection implies MinGW detection — the Git Bash test
requires "MINGW" to occur in `MSYSTEM`, which is already one of the MinGW
disjuncts — so the Git Bash flag never changes the value of the emulation
disjunction used for dispatch. -/
theorem git_bash_implies_mingw (e : Env) (h : detect_git_bash e = true) :
    detect_mingw e = true ∧
    (detect_mingw e || detect_git_bash e || detect_cygwin e)
      = (detect_mingw e || detect_cygwin e) := by
  have hm : substr "MINGW" (e.getD "MSYSTEM" "") = true := by
    unfold detect_git_bash at h
    exact ((Bool.and_eq_true _ _).mp h).1
  have : detect_mingw e = true := by
    unfold detect_mingw
    simp [hm]
  simp [this]

/-- C10 witness: a Git Bash environment (`MSYSTEM=MINGW64`,
`EXEPATH=C:\Program Files\Git`) is detected as Git Bash and as MinGW. -/
theorem git_bash_implies_mingw_witness :
    detect_git_bash envMingw = true ∧ detect_mingw envMingw = true :=
  ⟨by decide, (git_bash_implies_mingw envMingw (by decide)).1⟩

/-- C4: whenever the script file required by the resolved dispatch target is
absent, `run_installer` exits with code 1, prints an error naming exactly
that file, and performs no installer invocation at all (no fallback to the
other platform's script). -/
theorem missing_script_reports_and_aborts (det : EnvironmentDetector) (w : World)
    (args : List String) (h : scriptPresent w (requiredScript det) = false) :
    (run_installer det w args).2 = Outcome.exit 1 ∧
    Event.print ("Error: " ++ requiredScript det ++ " not found")
      ∈ (run_installer det w args).1 ∧
    callEvents (run_installer det w args).1 = [] := by
  unfold scriptPresent requiredScript at h
  unfold run_installer requiredScript
  split_ifs at h ⊢ <;> simp_all [callEvents, List.filter_cons]

/-- C4 witness: on native Windows with `install.ps1` absent, the dispatcher
exits 1, names `install.ps1`, and invokes nothing. -/
theorem missing_script_reports_and_aborts_witness :
    scriptPresent wWinNoScript (requiredScript (EnvironmentDetector.detect envWin)) = false ∧
    ((run_installer (EnvironmentDetector.detect envWin) wWinNoScript ["--all"]).2 = Outcome.exit 1 ∧
     Event.print ("Error: " ++ requiredScript (EnvironmentDetector.detect envWin) ++ " not found")
       ∈ (run_installer (EnvironmentDetector.detect envWin) wWinNoScript ["--all"]).1 ∧
     callEvents (run_installer (EnvironmentDetector.detect envWin) wWinNoScript ["--all"]).1 = []) :=
  ⟨by decide,
   missing_script_reports_and_aborts (EnvironmentDetector.detect envWin) wWinNoScript
     ["--all"] (by decide)⟩

/-- C5 counterexample: on a plain Unix dispatch (`SHELL=/bin/bash`, no
emulation layer) with `install.sh` present but chmod failing, the chmod
failure is NOT silently ignored: it propagates as an unhandled exception and
the script is never invoked — refuting the claim that for every posix-shell
dispatch the failure is swallowed and invocation is attempted anyway. -/
theorem chmod_failure_propagates_cex :
    (run_installer (EnvironmentDetector.detect envUnix) wChmodFail ["--all"]).2
      = Outcome.raise "PermissionError: chmod" ∧
    callEvents (run_installer (EnvironmentDetector.detect envUnix) wChmodFail ["--all"]).1
      = [] := by
  decide

/-- C5 amended: a chmod failure is silently ignored, and invocation is
attempted anyway, only in the MinGW/Git Bash/Cygwin dispatch branch; in the
plain-Unix default branch the chmod call is unprotected, so its failure
propagates as an unhandled exception and the script is not invoked. -/
theorem chmod_failure_handling_amended (det : EnvironmentDetector) (w : World)
    (args : List String) (hsh : w.installShExists = true) (hch : w.chmodOk = false) :
    (det.actual_shell ≠ "wsl_from_windows" →
     (det.is_mingw || det.is_git_bash || det.is_cygwin) = true →
       (run_installer det w args).2 = Outcome.exit w.childExit ∧
       Event.call (["bash", shPath w] ++ args) args (some (emojiVal det))
         ∈ (run_installer det w args).1) ∧
    (det.actual_shell ≠ "wsl_from_windows" →
     (det.is_mingw || det.is_git_bash || det.is_cygwin) = false →
     ¬(det.actual_shell = "powershell" ∨ det.actual_shell = "cmd") →
       (run_installer det w args).2 = Outcome.raise "PermissionError: chmod" ∧
       callEvents (run_installer det w args).1 = []) := by
  constructor
  · intro h1 h2
    unfold run_installer
    simp [h1, h2, hsh]
  · intro h1 h2 h3
    unfold run_installer
    simp [h1, h2, h3, hsh, hch, callEvents, List.filter_cons]

/-- C5 amended witness: in a Git Bash world with chmod failing, the script
is still invoked and the child's exit code is returned. -/
theorem chmod_failure_handling_amended_witness :
    wMingwChmodFail.installShExists = true ∧ wMingwChmodFail.chmodOk = false ∧
    (((EnvironmentDetector.detect envMingw).actual_shell ≠ "wsl_from_windows" →
      ((EnvironmentDetector.detect envMingw).is_mingw
        || (EnvironmentDetector.detect envMingw).is_git_bash
        || (EnvironmentDetector.detect envMingw).is_cygwin) = true →
        (run_installer (EnvironmentDetector.detect envMingw) wMingwChmodFail ["--all"]).2
          = Outcome.exit wMingwChmodFail.childExit ∧
        Event.call (["bash", shPath wMingwChmodFail] ++ ["--all"]) ["--all"]
            (some (emojiVal (EnvironmentDetector.detect envMingw)))
          ∈ (run_installer (EnvironmentDetector.detect envMingw) wMingwChmodFail ["--all"]).1) ∧
     ((EnvironmentDetector.detect envMingw).actual_shell ≠ "wsl_from_windows" →
      ((EnvironmentDetector.detect envMingw).is_mingw
        || (EnvironmentDetector.detect envMingw).is_git_bash
        || (EnvironmentDetector.detect envMingw).is_cygwin) = false →
      ¬((EnvironmentDetector.detect envMingw).actual_shell = "powershell"
        ∨ (EnvironmentDetector.detect envMingw).actual_shell = "cmd") →
        (run_installer (EnvironmentDetector.detect envMingw) wMingwChmodFail ["--all"]).2
          = Outcome.raise "PermissionError: chmod" ∧
        callEvents (run_installer (EnvironmentDetector.detect envMingw) wMingwChmodFail ["--all"]).1
          = [])) :=
  ⟨by decide, by decide,
   chmod_failure_handling_amended (EnvironmentDetector.detect envMingw) wMingwChmodFail
     ["--all"] (by decide) (by decide)⟩

lemma actual_shell_of_emulation (e : Env)
    (h : (detect_mingw e || detect_git_bash e || detect_cygwin e) = true) :
    (EnvironmentDetector.detect e).actual_shell = "wsl_from_windows" ∨
    (EnvironmentDetector.detect e).actual_shell = "bash" := by
  have hd : (EnvironmentDetector.detect e).actual_shell =
      detect_actual_shell e (detect_wsl e) (detect_mingw e) (detect_cygwin e)
        (detect_git_bash e) (detect_python_type e) := rfl
  rw [hd]
  unfold detect_actual_shell
  split_ifs with h1
  · exact Or.inl rfl
  · exact Or.inr rfl

lemma ps_cmd_excludes_emulation (e : Env)
    (h : (EnvironmentDetector.detect e).actual_shell = "powershell"
       ∨ (EnvironmentDetector.detect e).actual_shell = "cmd") :
    ((EnvironmentDetector.detect e).is_mingw || (EnvironmentDetector.detect e).is_git_bash
      || (EnvironmentDetector.detect e).is_cygwin) = false := by
  have hm : (EnvironmentDetector.detect e).is_mingw = detect_mingw e := rfl
  have hg : (EnvironmentDetector.detect e).is_git_bash = detect_git_bash e := rfl
  have hc : (EnvironmentDetector.detect e).is_cygwin = detect_cygwin e := rfl
  rw [hm, hg, hc]
  by_contra hne
  have ht : (detect_mingw e || detect_git_bash e || detect_cygwin e) = true := by
    revert hne
    cases detect_mingw e || detect_git_bash e || detect_cygwin e <;> simp
  rcases actual_shell_of_emulation e ht with h2 | h2 <;> rcases h with h | h <;>
    rw [h2] at h <;> exact absurd h (by decide)

/-- C9: for every windows-native dispatch (target `powershell` or `cmd`)
with `install.ps1` present, the script is invoked through `powershell` with
the `-ExecutionPolicy Bypass` flag and the forwarded arguments, and
`-NoEmoji` is inserted if and only if glyph support resolved false. -/
theorem powershell_dispatch_form (w : World) (args : List String)
    (hsh : (EnvironmentDetector.detect w.env).actual_shell = "powershell"
         ∨ (EnvironmentDetector.detect w.env).actual_shell = "cmd")
    (hps : w.installPs1Exists = true) :
    run_installer (EnvironmentDetector.detect w.env) w args =
      ([Event.call (["powershell", "-ExecutionPolicy", "Bypass", "-File", psPath w]
          ++ (if (EnvironmentDetector.detect w.env).supports_emoji then [] else ["-NoEmoji"])
          ++ args) args none],
       Outcome.exit w.childExit) := by
  have hem := ps_cmd_excludes_emulation w.env hsh
  have hwsl : ¬((EnvironmentDetector.detect w.env).actual_shell = "wsl_from_windows") := by
    rcases hsh with h | h <;> rw [h] <;> decide
  unfold run_installer
  simp [hwsl, hem, hsh, hps]

/-- C9 witness: native Windows interpreter, no emulation layer, no subsystem
markers, `PSModulePath` present, emoji support false — invoking with
`["--all"]` runs `powershell -ExecutionPolicy Bypass -File C:/repo/install.ps1
-NoEmoji --all`. -/
theorem powershell_dispatch_form_witness :
    ((EnvironmentDetector.detect wWinOk.env).actual_shell = "powershell"
      ∨ (EnvironmentDetector.detect wWinOk.env).actual_shell = "cmd") ∧
    wWinOk.installPs1Exists = true ∧
    run_installer (EnvironmentDetector.detect wWinOk.env) wWinOk ["--all"] =
      ([Event.call (["powershell", "-ExecutionPolicy", "Bypass", "-File", psPath wWinOk]
          ++ (if (EnvironmentDetector.detect wWinOk.env).supports_emoji then [] else ["-NoEmoji"])
          ++ ["--all"]) ["--all"] none],
       Outcome.exit wWinOk.childExit) :=
  ⟨by decide, by decide,
   powershell_dispatch_form wWinOk ["--all"] (by decide) (by decide)⟩

/-- C2 counterexample: `args.remove("--debug")` strips only the first
occurrence, so with input `["--debug", "--debug"]` the forwarded argument
list still contains `"--debug"` — refuting the claim that every occurrence
is removed before forwarding. -/
theorem debug_strip_cex :
    (forwardedLists (main_run wUnixOk ["--debug", "--debug"]).1).any
      (fun l => decide ("--debug" ∈ l)) = true := by
  decide

/-- C2 amended: the first occurrence of `--debug` is removed before the
remaining arguments are forwarded; consequently, whenever `--debug` occurs
at most once in the input, the forwarded argument list never contains it. -/
theorem debug_strip_first_occurrence (w : World) (argv : List String)
    (hcount : argv.count "--debug" ≤ 1) :
    (forwardedLists (main_run w argv).1).all
      (fun l => decide ("--debug" ∉ l)) = true := by
  rw [List.all_eq_true]
  intro l hl
  have hfwd := forwardedLists_main w argv l hl
  subst hfwd
  have hnot : "--debug" ∉ stripDebug argv := by
    unfold stripDebug
    split_ifs with hmem
    · have h1 : argv.count "--debug" = 1 :=
        le_antisymm hcount (List.count_pos_iff.mpr hmem)
      have h0 : (argv.erase "--debug").count "--debug" = 0 := by
        rw [List.count_erase_self, h1]
      exact List.count_eq_zero.mp h0
    · exact hmem
  exact decide_eq_true hnot

/-- C2 amended witness: with `--debug` occurring once, the forwarded list is
free of it. -/
theorem debug_strip_first_occurrence_witness :
    (["--debug", "--all"] : List String).count "--debug" ≤ 1 ∧
    (forwardedLists (main_run wUnixOk ["--debug", "--all"]).1).all
      (fun l => decide ("--debug" ∉ l)) = true :=
  ⟨by decide, debug_strip_first_occurrence wUnixOk ["--debug", "--all"] (by decide)⟩

lemma probesBounded_append (t1 t2 : List Event) :
    probesBounded (t1 ++ t2) = (probesBounded t1 && probesBounded t2) := by
  simp [probesBounded, List.all_append]

lemma probesBounded_cons_detector (tr : List Event) :
    probesBounded (Event.detectorRun :: tr) = probesBounded tr := by
  simp [probesBounded]

/-- C3: when the toolchain check fails (both direct version probes and, when
applicable, the bridged probe — i.e. `check_rust_installed` returns false)
and help was not requested, the program prints the installation-instructions
message, exits with code 1, invokes neither installer script, and every
version probe it ran carried the 5-unit timeout. -/
theorem rust_gate_blocks_dispatch (w : World) (argv : List String)
    (hh : "--help" ∉ argv) (hh2 : "-h" ∉ argv)
    (hfail : (check_rust_installed w).1 = false) :
    (main_run w argv).2 = Outcome.exit 1 ∧
    Event.print "Please install Rust first: https://rustup.rs" ∈ (main_run w argv).1 ∧
    callEvents (main_run w argv).1 = [] ∧
    probesBounded (main_run w argv).1 = true := by
  have hh' : "--help" ∉ stripDebug argv := by
    unfold stripDebug
    split_ifs
    · exact fun hmem => hh (List.mem_of_mem_erase hmem)
    · exact hh
  have hh2' : "-h" ∉ stripDebug argv := by
    unfold stripDebug
    split_ifs
    · exact fun hmem => hh2 (List.mem_of_mem_erase hmem)
    · exact hh2
  have hcond : ¬("--help" ∈ stripDebug argv ∨ "-h" ∈ stripDebug argv) := by
    rintro (h | h)
    · exact hh' h
    · exact hh2' h
  have hmain1 : (main_run w argv).1 =
      (Event.detectorRun :: debugEvents (EnvironmentDetector.detect w.env) argv)
        ++ (check_rust_installed w).2
        ++ rustFailEvents (EnvironmentDetector.detect w.env) := by
    unfold main_run
    simp only []
    rw [if_neg hcond, if_pos hfail]
  have hmain2 : (main_run w argv).2 = Outcome.exit 1 := by
    unfold main_run
    simp only []
    rw [if_neg hcond, if_pos hfail]
  rw [hmain1, hmain2]
  refine ⟨rfl, ?_, ?_, ?_⟩
  · rw [List.mem_append]
    right
    unfold rustFailEvents
    split_ifs <;> simp
  · simp only [List.cons_append]
    rw [callEvents_cons_detector, callEvents_append, callEvents_append,
      callEvents_nil _ (onlyPrints_debugEvents _ argv), callEvents_check w,
      callEvents_nil _ (onlyPrints_rustFailEvents _)]
    rfl
  · have hb1 : probesBounded (debugEvents (EnvironmentDetector.detect w.env) argv) = true :=
      all_of_onlyPrints _ (onlyPrints_debugEvents _ argv) _ (fun _ => rfl)
    have hb2 : probesBounded (rustFailEvents (EnvironmentDetector.detect w.env)) = true :=
      all_of_onlyPrints _ (onlyPrints_rustFailEvents _) _ (fun _ => rfl)
    simp only [List.cons_append]
    rw [probesBounded_cons_detector, probesBounded_append, probesBounded_append,
      hb1, probes_check_bounded w, hb2]
    rfl

/-- C3 witness: plain Unix world with every toolchain probe failing and
argument `["--all"]`. -/
theorem rust_gate_blocks_dispatch_witness :
    "--help" ∉ (["--all"] : List String) ∧ "-h" ∉ (["--all"] : List String) ∧
    (check_rust_installed wAllFail).1 = false ∧
    ((main_run wAllFail ["--all"]).2 = Outcome.exit 1 ∧
     Event.print "Please install Rust first: https://rustup.rs" ∈ (main_run wAllFail ["--all"]).1 ∧
     callEvents (main_run wAllFail ["--all"]).1 = [] ∧
     probesBounded (main_run wAllFail ["--all"]).1 = true) :=
  ⟨by decide, by decide, by decide,
   rust_gate_blocks_dispatch wAllFail ["--all"] (by decide) (by decide) (by decide)⟩

/-- C6 counterexample: in a WSL-from-Windows world where both direct
toolchain probes fail (and the bridged probe succeeds, so dispatch still
happens), the full probe suite is run twice — `main` constructs one
`EnvironmentDetector` and `check_rust_installed` constructs a second —
refuting the claim that the classification is computed exactly once per
process with no probe re-run. -/
theorem classification_recomputed_cex :
    detectorRuns (main_run wWslRetry []).1 = 2 := by
  decide

/-- C6 amended: every `EnvironmentDetector` field is set only at
construction and the dispatch decision uses the detector built at startup;
but the classification is not always computed exactly once — when both
direct toolchain probes fail (and help was not requested),
`check_rust_installed` constructs a second detector, re-running every
probe, so the suite runs twice; otherwise it runs once. -/
theorem detector_construction_count (w : World) (argv : List String) :
    detectorRuns (main_run w argv).1 =
      if "--help" ∈ stripDebug argv ∨ "-h" ∈ stripDebug argv then 1
      else if w.rustcOk = false ∧ w.cargoOk = false then 2 else 1 := by
  have hdbg := detectorRuns_zero _ (onlyPrints_debugEvents (EnvironmentDetector.detect w.env) argv)
  have hhelp := detectorRuns_zero _ (onlyPrints_helpEvents (EnvironmentDetector.detect w.env))
  have hfl := detectorRuns_zero _ (onlyPrints_rustFailEvents (EnvironmentDetector.detect w.env))
  have hchk := detectorRuns_check w
  have hrun := detectorRuns_run (EnvironmentDetector.detect w.env) w (stripDebug argv)
  unfold main_run
  simp only []
  split_ifs with h1 h2 h3 h4
  all_goals
    simp_all [List.cons_append, detectorRuns_cons_detector, detectorRuns_append]
